import Mathlib

/-!
Shallow embedding of the polling, scheduling and rate-limit core of the
repository: the 15-minute grid scheduler with skip-ahead
(src/handlers/eventHandler.js), the Twitter rate-limit tracker and poller
(src/integrations/twitter.js), the YouTube time-window poller
(src/integrations/youtube.js), the youtube add command
(src/commands/youtube.js) and the SQLite-backed stores
(src/database/database.js).

Times are modelled as milliseconds on a uniform timeline (Nat, or Int
where the source subtracts freely).  Asynchronous sleeps are modelled by
passing the post-sleep clock instant explicitly.  Upstream HTTP calls are
modelled by passing the response as a value.
-/

namespace Jinn

/-- eventHandler.js lines 13-36, getNextCheckTime: round the current time
up to the 15-minute wall-clock grid (:00, :15, :30, :45 of each hour) and
add skipCount further grid steps.  now is in milliseconds;
Math.ceil(minutes / 15) on natural minutes is (minutes + 14) / 15 in Nat
division; setHours/setMinutes/setSeconds(0)/setMilliseconds(0) on a copy
of now is the hour floor plus the computed hours and minutes. -/
def getNextCheckTime (now : Nat) (skipCount : Nat) : Nat :=
  let minutes := now / 60000 % 60
  let nextMinutes := (minutes + 14) / 15 * 15 + skipCount * 15
  let hoursToAdd := nextMinutes / 60
  let finalMinutes := nextMinutes % 60
  now / 3600000 * 3600000 + hoursToAdd * 3600000 + finalMinutes * 60000

/-- eventHandler.js lines 255-258, the while loop inside
findNextViableCheckTime: starting from skipCount, keep advancing one grid
step while the candidate tick is before resetAt + 60000 (the one-minute
buffer).  Returns the final (skipCount, tick); the source logs the final
skipCount as skippedIntervals. -/
def skipLoop (now resetAt : Nat) (skipCount : Nat) : Nat × Nat :=
  if _h : getNextCheckTime now skipCount < resetAt + 60000 then
    skipLoop now resetAt (skipCount + 1)
  else
    (skipCount, getNextCheckTime now skipCount)
termination_by resetAt + 60000 - getNextCheckTime now skipCount
decreasing_by
  simp_wf
  simp only [getNextCheckTime] at *
  omega

/-- eventHandler.js lines 248-269, findNextViableCheckTime: the tick for
skipCount 0 if the pre-check allows processing, otherwise the result of
the skip-ahead loop. -/
def findNextViableCheckTime (now resetAt : Nat) (canProcess : Bool) : Nat × Nat :=
  if canProcess then (0, getNextCheckTime now 0) else skipLoop now resetAt 0

/-- twitter.js constructor state: this.rateLimit.remaining / resetAt /
lastReset, this.backoffTime, this.lastRequestTime, this.requestCount.
remaining is an Int because the source compares it with 0 and 100 as a
signed number. -/
structure TwitterState where
  remaining : Int
  resetAt : Nat
  lastReset : Nat
  backoffTime : Nat
  lastRequestTime : Nat
  requestCount : Nat
deriving DecidableEq

/-- twitter.js lines 15-27: 180 requests, reset 15 minutes out, no
backoff, empty batch. -/
def initState (now : Nat) : TwitterState :=
  { remaining := 180, resetAt := now + 900000, lastReset := now,
    backoffTime := 0, lastRequestTime := 0, requestCount := 0 }

/-- twitter.js lines 135-249, handleRateLimit.  now is Date.now() at
entry; t1 is the instant after the minimum-interval sleep and t2 the
instant after the buffer-branch sleep.  Branch order follows the source:
batch cap, window reset, buffer threshold, remaining requests, backoff.
The backoff branch doubles backoffTime (capped at 300000), sleeps it and
recurses, exactly as the source; its guards (remaining not at most 100
and remaining not positive) are contradictory over the integers, which
discharges the termination obligation. -/
def handleRateLimit (now : Nat) (s : TwitterState) : TwitterState × Bool :=
  let t1 := if now - s.lastRequestTime < 10000 then s.lastRequestTime + 10000 else now
  if 5 ≤ s.requestCount then
    ({ s with requestCount := 0, lastRequestTime := t1 + 60000 }, true)
  else if s.resetAt ≤ now then
    ({ s with remaining := 180, resetAt := now + 900000, lastReset := now,
              backoffTime := 0, requestCount := 0 }, true)
  else if _h3 : s.remaining ≤ 100 then
    let t2 := t1 + (s.resetAt - now) + 5000
    ({ s with requestCount := 0, backoffTime := 0, remaining := 180,
              resetAt := t2 + 900000 }, true)
  else if _h4 : 0 < s.remaining then
    ({ s with requestCount := s.requestCount + 1 }, true)
  else
    let b := if s.backoffTime = 0 then 10000 else min (s.backoffTime * 2) 300000
    handleRateLimit (t1 + b) { s with backoffTime := b }
termination_by 0
decreasing_by
  simp_wf
  omega

/-- twitter.js lines 277-278: after a 2xx response, refresh the tracker
from the x-rate-limit-remaining and x-rate-limit-reset headers (a missing
header parses as 0; the reset header is epoch seconds, stored as ms). -/
def recordResponse (rem reset : Nat) (s : TwitterState) : TwitterState :=
  { s with remaining := (rem : Int), resetAt := reset * 1000 }

/-- twitter.js lines 318-328, the 429 handler: force remaining to 0 and
set resetAt to now plus the retry-after header in seconds, defaulting to
900 seconds when the header is absent. -/
def recordThrottled (now : Nat) (retryAfter : Option Nat) (s : TwitterState) : TwitterState :=
  { s with remaining := 0, resetAt := now + retryAfter.getD 900 * 1000 }

/-- One tracker-affecting event: a gate check (one handleRateLimit call),
a response-header update, a 429 throttle record, or the lastRequestTime
stamp taken right before an upstream request (fetchTweets line 263). -/
inductive TrackerOp where
  | check (now : Nat)
  | response (rem reset : Nat)
  | throttled (now : Nat) (retryAfter : Option Nat)
  | markRequest (now : Nat)
deriving DecidableEq

/-- Apply one tracker event to the state. -/
def applyOp (op : TrackerOp) (s : TwitterState) : TwitterState :=
  match op with
  | TrackerOp.check now => (handleRateLimit now s).1
  | TrackerOp.response rem reset => recordResponse rem reset s
  | TrackerOp.throttled now ra => recordThrottled now ra s
  | TrackerOp.markRequest now => { s with lastRequestTime := now }

/-- Run a sequence of tracker events from the constructor state. -/
def runOps (ops : List TrackerOp) (now0 : Nat) : TwitterState :=
  ops.foldl (fun s op => applyOp op s) (initState now0)

/-- A tweet as far as the cursor and dispatch logic observe it: its id.
The Twitter API returns the data array newest first. -/
structure Tweet where
  id : Nat
deriving DecidableEq

/-- One row of the twitter_accounts table (database.js lines 776-783). -/
structure TwitterAccount where
  account_handle : String
  last_tweet_id : Option Nat
deriving DecidableEq

/-- database.js updateLastTweetId: UPDATE twitter_accounts SET
last_tweet_id = ? WHERE account_handle = ?. -/
def updateLastTweetId (rows : List TwitterAccount) (handle : String) (tweetId : Nat) :
    List TwitterAccount :=
  rows.map fun r =>
    if r.account_handle == handle then { r with last_tweet_id := some tweetId } else r

/-- Upstream outcome of the search request in fetchTweets: a 2xx response
with rate-limit headers and a (possibly empty) data array, a
429-equivalent error with an optional retry-after header, or any other
failure. -/
inductive FetchResponse where
  | ok (remHeader resetHeader : Nat) (data : List Tweet)
  | http429 (retryAfter : Option Nat)
  | err
deriving DecidableEq

/-- Cursor and result logic of twitter.js fetchTweets (lines 251-337),
parametrised by the boolean the rate-limit gate resolved to (the source
tests that value at line 254).  On a non-empty data array the cursor is
set to the id of data[0] and all items are returned; an empty array, a
denied gate, a 429 or any error yields null. -/
def fetchTweetsCore (gate : Bool) (rows : List TwitterAccount) (acct : TwitterAccount)
    (resp : FetchResponse) : List TwitterAccount × Option (List Tweet) :=
  if gate then
    match resp with
    | FetchResponse.ok _ _ [] => (rows, none)
    | FetchResponse.ok _ _ (t :: ts) =>
        (updateLastTweetId rows acct.account_handle t.id, some (t :: ts))
    | FetchResponse.http429 _ => (rows, none)
    | FetchResponse.err => (rows, none)
  else (rows, none)

/-- twitter.js fetchTweets: gate through handleRateLimit, stamp
lastRequestTime, perform the request, update the tracker from the
response (headers on 2xx, throttle record on 429) and the cursor store
from the data. -/
def fetchTweets (s : TwitterState) (now : Nat) (rows : List TwitterAccount)
    (acct : TwitterAccount) (resp : FetchResponse) :
    TwitterState × List TwitterAccount × Option (List Tweet) :=
  let gate := handleRateLimit now s
  if gate.2 = false then (gate.1, rows, none)
  else
    let s1 := { gate.1 with lastRequestTime := now }
    let s2 :=
      match resp with
      | FetchResponse.ok rem reset _ => recordResponse rem reset s1
      | FetchResponse.http429 ra => recordThrottled now ra s1
      | FetchResponse.err => s1
    let core := fetchTweetsCore true rows acct resp
    (s2, core.1, core.2)

/-- eventHandler.js lines 294-305, the dispatch loop in runChecks: every
collected item is handed to sendTwitterUpdate; a failed send is caught
and logged and the loop continues with the next item.  send gives each
dispatch attempt's outcome. -/
def sendAll (items : List Tweet) (send : Tweet → Bool) : List (Tweet × Bool) :=
  match items with
  | [] => []
  | t :: ts => (t, send t) :: sendAll ts send

/-- One account in a checkNewTweets pass: its row, the boolean its
rate-limit gate resolves to, and its upstream response. -/
structure AccountPoll where
  account : TwitterAccount
  gate : Bool
  resp : FetchResponse
deriving DecidableEq

/-- twitter.js lines 401-472, the account loop of checkNewTweets: each
account is fetched in turn; a null fetch result (denied gate, empty data,
429 or error) only skips that account, and the loop continues with the
next one.  Returns the final account rows and the accumulated
(handle, tweet) results in order. -/
def checkNewTweets (polls : List AccountPoll) (rows : List TwitterAccount) :
    List TwitterAccount × List (String × Tweet) :=
  match polls with
  | [] => (rows, [])
  | p :: rest =>
    match fetchTweetsCore p.gate rows p.account p.resp with
    | (rows1, some tweets) =>
        let r := checkNewTweets rest rows1
        (r.1, tweets.map (fun t => (p.account.account_handle, t)) ++ r.2)
    | (rows1, none) => checkNewTweets rest rows1

/-- A YouTube video as the upload filter observes it: id and published
timestamp in ms (Int: the source compares Date objects). -/
structure Video where
  id : String
  publishedAt : Int
deriving DecidableEq

/-- youtube.js lines 624-628, the newness test of checkNewUploads: the
video's publish date is strictly after Date.now() minus 15 minutes. -/
def isNewVideo (now : Int) (v : Video) : Bool :=
  decide (now - 15 * 60 * 1000 < v.publishedAt)

/-- youtube.js line 624: newVideos = videos.filter(isNew). -/
def filterNewVideos (now : Int) (videos : List Video) : List Video :=
  videos.filter (fun v => isNewVideo now v)

/-- Channel metadata returned by the /channels lookup in
fetchLatestVideos: id, uploads playlist handle, title. -/
structure YtChannelInfo where
  id : String
  uploadsPlaylist : String
  title : String
deriving DecidableEq

/-- Outcome of the /channels request: a failed request, or a 2xx response
with its (possibly empty) items array. -/
inductive ChannelLookup where
  | fail
  | ok (items : List YtChannelInfo)
deriving DecidableEq

/-- A fully-detailed video from the /videos lookup. -/
structure YtVideo where
  id : String
deriving DecidableEq

/-- youtube.js lines 543-606, fetchLatestVideos: resolve the channel (an
empty items array throws Channel not found, caught into null; a request
error is also caught into null), then fetch the uploads playlist items
(empty yields null), then the video details.  playlistItems are the video
ids of the playlist response; videoDetails the detailed items. -/
def fetchLatestVideos (lookup : ChannelLookup) (playlistItems : List String)
    (videoDetails : List YtVideo) : Option (YtChannelInfo × List YtVideo) :=
  match lookup with
  | ChannelLookup.fail => none
  | ChannelLookup.ok [] => none
  | ChannelLookup.ok (c :: _) =>
      if playlistItems.isEmpty then none else some (c, videoDetails)

/-- One row of the youtube_channels table (database.js lines 785-792). -/
structure YoutubeRow where
  channel_id : String
  last_video_id : Option String
deriving DecidableEq

/-- database.js addYoutubeChannel: INSERT OR IGNORE INTO youtube_channels
(channel_id) VALUES (?) against the UNIQUE channel_id constraint. -/
def addYoutubeChannel (rows : List YoutubeRow) (channelId : String) : List YoutubeRow :=
  if rows.any (fun r => r.channel_id == channelId) then rows
  else rows ++ [{ channel_id := channelId, last_video_id := none }]

/-- commands/youtube.js lines 37-57, the add subcommand: verify the
channel id by calling fetchLatestVideos; on null reply with a failure
message and persist nothing, otherwise persist and reply with success.
The Bool is true exactly when the success path ran. -/
def youtubeAddCommand (rows : List YoutubeRow) (channelId : String)
    (lookup : ChannelLookup) (playlistItems : List String) (videoDetails : List YtVideo) :
    List YoutubeRow × Bool :=
  match fetchLatestVideos lookup playlistItems videoDetails with
  | none => (rows, false)
  | some _ => (addYoutubeChannel rows channelId, true)

/-- One row of the discord_channels table (database.js lines 794-802):
guild_id is UNIQUE. -/
structure GuildRow where
  guild_id : String
  twitter_channel_id : String
  youtube_channel_id : String
deriving DecidableEq

/-- database.js lines 1009-1077, setGuildChannels: INSERT INTO
discord_channels ... ON CONFLICT(guild_id) DO UPDATE SET both channel
columns from the excluded row.  Under the UNIQUE(guild_id) constraint the
conflicting row, if any, is the single row with this guild_id; otherwise
a new row is appended. -/
def setGuildChannels (rows : List GuildRow) (guildId twitterChannelId youtubeChannelId : String) :
    List GuildRow :=
  match rows with
  | [] => [{ guild_id := guildId, twitter_channel_id := twitterChannelId,
             youtube_channel_id := youtubeChannelId }]
  | r :: rs =>
      if r.guild_id == guildId then
        { guild_id := guildId, twitter_channel_id := twitterChannelId,
          youtube_channel_id := youtubeChannelId } :: rs
      else r :: setGuildChannels rs guildId twitterChannelId youtubeChannelId

/-! ## Scheduler grid lemmas -/

/-- Each additional skip moves the computed tick exactly one 15-minute
grid step forward. -/
theorem getNextCheckTime_succ (now k : Nat) :
    getNextCheckTime now (k + 1) = getNextCheckTime now k + 900000 := by
  simp only [getNextCheckTime]
  omega

/-- The tick for skipCount 0 is the unique 15-minute grid line at or
after the start of the current minute. -/
theorem getNextCheckTime_zero (now : Nat) :
    getNextCheckTime now 0 % 900000 = 0 ∧
    now - now % 60000 ≤ getNextCheckTime now 0 ∧
    getNextCheckTime now 0 < now - now % 60000 + 900000 := by
  simp only [getNextCheckTime]
  omega

/-- The tick for skipCount k is the base tick plus k grid steps. -/
theorem getNextCheckTime_shift (now k : Nat) :
    getNextCheckTime now k = getNextCheckTime now 0 + 900000 * k := by
  induction k with
  | zero => omega
  | succ n ih => rw [getNextCheckTime_succ, ih]; ring

/-- One unfolding of the skip-ahead loop, entering case. -/
theorem skipLoop_step (now resetAt skip : Nat)
    (h : getNextCheckTime now skip < resetAt + 60000) :
    skipLoop now resetAt skip = skipLoop now resetAt (skip + 1) := by
  rw [skipLoop]
  exact dif_pos h

/-- One unfolding of the skip-ahead loop, exit case. -/
theorem skipLoop_exit (now resetAt skip : Nat)
    (h : ¬ getNextCheckTime now skip < resetAt + 60000) :
    skipLoop now resetAt skip = (skip, getNextCheckTime now skip) := by
  rw [skipLoop]
  exact dif_neg h

/-- The skip-ahead loop stops at the first tick of the skip sequence that
reaches resetAt + 60000, and on entry from below it stops within one grid
step of the threshold. -/
theorem skipLoop_spec (now resetAt : Nat) :
    ∀ m skip, resetAt + 60000 ≤ getNextCheckTime now skip + 900000 * m →
    ∃ k, skip ≤ k ∧ skipLoop now resetAt skip = (k, getNextCheckTime now k) ∧
      resetAt + 60000 ≤ getNextCheckTime now k ∧
      (k = skip ∨ getNextCheckTime now k < resetAt + 60000 + 900000) := by
  intro m
  induction m with
  | zero =>
      intro skip h
      refine ⟨skip, le_refl _, skipLoop_exit now resetAt skip (by omega), by omega, Or.inl rfl⟩
  | succ n ih =>
      intro skip h
      by_cases hc : getNextCheckTime now skip < resetAt + 60000
      · have hsucc := getNextCheckTime_succ now skip
        have h' : resetAt + 60000 ≤ getNextCheckTime now (skip + 1) + 900000 * n := by omega
        obtain ⟨k, hk1, hk2, hk3, hk4⟩ := ih (skip + 1) h'
        refine ⟨k, by omega, ?_, hk3, Or.inr ?_⟩
        · rw [skipLoop_step now resetAt skip hc]; exact hk2
        · rcases hk4 with rfl | hlt
          · omega
          · exact hlt
      · exact ⟨skip, le_refl _, skipLoop_exit now resetAt skip hc, by omega, Or.inl rfl⟩

/-! ## C2 -/

/-- C2, counterexample: at exactly 0:15:00.000 (now = 900000 ms) the
computed next tick with skipCount 0 is 0:15:00.000 itself, the same
instant, not 0:30:00.000 (1800000 ms) as the claim requires; the result
is not strictly after the current instant. -/
theorem next_tick_at_exact_grid_instant :
    getNextCheckTime 900000 0 = 900000 ∧ getNextCheckTime 900000 0 ≠ 1800000 := by
  constructor <;> decide

/-- C2, amended: for every current time, the tick computed with skipCount
0 is the unique 15-minute grid line at or after the current time rounded
down to the whole minute — so at HH:07 it is HH:15, but at exactly
HH:15:00 it is HH:15 itself, the same instant, and the tick is not always
strictly after the current instant. -/
theorem next_tick_grid_alignment (now : Nat) :
    getNextCheckTime now 0 % 900000 = 0 ∧
    now - now % 60000 ≤ getNextCheckTime now 0 ∧
    getNextCheckTime now 0 < now - now % 60000 + 900000 :=
  getNextCheckTime_zero now

/-! ## C3 -/

/-- C3, counterexample: at 0:14:00.000 (now = 840000) with resetAt
exactly 20 minutes ahead (2040000), the skip-ahead loop lands on
0:45:00.000 (2700000) after skipping two grid ticks (0:15 and 0:30), not
exactly one as the claim requires. -/
theorem skip_ahead_two_ticks_example :
    skipLoop 840000 2040000 0 = (2, 2700000) ∧ (skipLoop 840000 2040000 0).1 ≠ 1 := by
  have h : skipLoop 840000 2040000 0 = (2, 2700000) := by
    rw [skipLoop_step 840000 2040000 0 (by decide),
        skipLoop_step 840000 2040000 1 (by decide),
        skipLoop_exit 840000 2040000 2 (by decide)]
    decide
  exact ⟨h, by rw [h]; decide⟩

/-- C3, amended: whenever the pre-check denies a pass and resetAt + 60s
is not before the start of the current minute, the skip-ahead loop
returns the first 15-minute grid line at or after resetAt + 60000, and
every intermediate grid tick is skipped (the result is the base tick plus
the returned skip count of grid steps); with resetAt 20 minutes ahead the
number of skipped ticks is one or two depending on the current offset
within the grid. -/
theorem skip_ahead_first_viable_grid_line (now resetAt : Nat)
    (h : now - now % 60000 ≤ resetAt + 60000) :
    (skipLoop now resetAt 0).2 % 900000 = 0 ∧
    resetAt + 60000 ≤ (skipLoop now resetAt 0).2 ∧
    (skipLoop now resetAt 0).2 < resetAt + 60000 + 900000 ∧
    (skipLoop now resetAt 0).2 =
      getNextCheckTime now 0 + 900000 * (skipLoop now resetAt 0).1 := by
  obtain ⟨hz1, hz2, hz3⟩ := getNextCheckTime_zero now
  obtain ⟨k, -, hk2, hk3, hk4⟩ :=
    skipLoop_spec now resetAt ((resetAt + 60000) / 900000 + 1) 0 (by omega)
  have hshift := getNextCheckTime_shift now k
  rw [hk2]
  refine ⟨by omega, hk3, ?_, by simpa using hshift⟩
  rcases hk4 with rfl | hlt
  · omega
  · exact hlt

/-- C3, witness: at 0:07:00.000 with resetAt 20 minutes ahead (1620000),
the hypothesis holds and the loop result is the first grid line at or
after resetAt + 60s, namely 0:30:00.000 = 1800000. -/
theorem skip_ahead_witness :
    420000 - 420000 % 60000 ≤ 1620000 + 60000 ∧
    ((skipLoop 420000 1620000 0).2 % 900000 = 0 ∧
     1620000 + 60000 ≤ (skipLoop 420000 1620000 0).2 ∧
     (skipLoop 420000 1620000 0).2 < 1620000 + 60000 + 900000 ∧
     (skipLoop 420000 1620000 0).2 =
       getNextCheckTime 420000 0 + 900000 * (skipLoop 420000 1620000 0).1) :=
  ⟨by decide, skip_ahead_first_viable_grid_line 420000 1620000 (by decide)⟩

/-! ## Rate limit tracker lemmas -/

/-- handleRateLimit returns true on every path: the batch, reset, buffer
and remaining branches all return true, and the backoff branch requires
remaining to be both above 100 and not positive, which is impossible. -/
theorem handleRateLimit_gate (now : Nat) (s : TwitterState) :
    (handleRateLimit now s).2 = true := by
  rw [handleRateLimit]
  split_ifs <;>
    first
      | rfl
      | exact absurd (show s.remaining ≤ 100 by omega) (by assumption)

/-- handleRateLimit keeps remaining non-negative and, from a zero-backoff
state, leaves backoff at zero: every live branch either preserves the two
fields or resets them to 180 and 0. -/
theorem handleRateLimit_inv (now : Nat) (s : TwitterState)
    (h1 : 0 ≤ s.remaining) (h2 : s.backoffTime = 0) :
    0 ≤ (handleRateLimit now s).1.remaining ∧ (handleRateLimit now s).1.backoffTime = 0 := by
  rw [handleRateLimit]
  split_ifs <;>
    first
      | exact ⟨h1, h2⟩
      | exact ⟨by norm_num, rfl⟩
      | exact absurd (show s.remaining ≤ 100 by omega) (by assumption)

/-- Every tracker event preserves non-negative remaining and zero
backoff. -/
theorem applyOp_inv (op : TrackerOp) (s : TwitterState)
    (h1 : 0 ≤ s.remaining) (h2 : s.backoffTime = 0) :
    0 ≤ (applyOp op s).remaining ∧ (applyOp op s).backoffTime = 0 := by
  cases op with
  | check now => exact handleRateLimit_inv now s h1 h2
  | response rem reset => exact ⟨Int.natCast_nonneg rem, h2⟩
  | throttled now ra => exact ⟨le_refl 0, h2⟩
  | markRequest now => exact ⟨h1, h2⟩

/-- Every state reachable from the constructor state has non-negative
remaining and zero backoff. -/
theorem runOps_inv (ops : List TrackerOp) (now0 : Nat) :
    0 ≤ (runOps ops now0).remaining ∧ (runOps ops now0).backoffTime = 0 := by
  have key : ∀ (l : List TrackerOp) (s : TwitterState), 0 ≤ s.remaining → s.backoffTime = 0 →
      0 ≤ (List.foldl (fun s op => applyOp op s) s l).remaining ∧
      (List.foldl (fun s op => applyOp op s) s l).backoffTime = 0 := by
    intro l
    induction l with
    | nil => intro s h1 h2; simpa using ⟨h1, h2⟩
    | cons op rest ih =>
        intro s h1 h2
        obtain ⟨g1, g2⟩ := applyOp_inv op s h1 h2
        simpa [List.foldl_cons] using ih (applyOp op s) g1 g2
  simpa [runOps] using key ops (initState now0) (by norm_num [initState]) rfl

/-! ## C5 -/

/-- C5: along every sequence of tracker events from the constructor
state, remaining is never negative; backoff is always 0 or a capped
power-of-two multiple of 10000 in the range 10000..300000 (it is in fact
always 0, since the buffer branch absorbs every non-positive remaining
value before the backoff branch can run); and a gate check performed once
resetAt has been reached leaves backoff at 0. -/
theorem tracker_invariants (ops : List TrackerOp) (now0 : Nat) :
    0 ≤ (runOps ops now0).remaining ∧
    ((runOps ops now0).backoffTime = 0 ∨
      (10000 ≤ (runOps ops now0).backoffTime ∧ (runOps ops now0).backoffTime ≤ 300000 ∧
        ∃ k, (runOps ops now0).backoffTime = min (10000 * 2 ^ k) 300000)) ∧
    ∀ now, (runOps ops now0).resetAt ≤ now →
      (applyOp (TrackerOp.check now) (runOps ops now0)).backoffTime = 0 := by
  obtain ⟨h1, h2⟩ := runOps_inv ops now0
  exact ⟨h1, Or.inl h2, fun now _ =>
    (applyOp_inv (TrackerOp.check now) (runOps ops now0) h1 h2).2⟩

/-- C5, witness: after a throttle record at time 0 with a 900s default,
resetAt is 900000; the invariants hold and a gate check at 900000 leaves
backoff at 0. -/
theorem tracker_invariants_witness :
    0 ≤ (runOps [TrackerOp.throttled 0 none] 0).remaining ∧
    (runOps [TrackerOp.throttled 0 none] 0).resetAt ≤ 900000 ∧
    (applyOp (TrackerOp.check 900000) (runOps [TrackerOp.throttled 0 none] 0)).backoffTime = 0 :=
  ⟨(tracker_invariants [TrackerOp.throttled 0 none] 0).1, by decide,
   (tracker_invariants [TrackerOp.throttled 0 none] 0).2.2 900000 (by decide)⟩

/-! ## C10 -/

/-- C10: the in-poller rate-limit gate always grants: for every state and
every clock value, handleRateLimit resolves to true, so the branch of
fetchTweets that returns null on a false gate result can never be
taken. -/
theorem rate_limit_gate_always_grants (now : Nat) (s : TwitterState) :
    (handleRateLimit now s).2 = true :=
  handleRateLimit_gate now s

/-! ## C6 -/

/-- fetchTweets on a 429 response reduces to the throttle record applied
after the gate, with no cursor change and a null result. -/
theorem fetchTweets_http429 (s : TwitterState) (now : Nat)
    (rows : List TwitterAccount) (acct : TwitterAccount) (ra : Option Nat) :
    fetchTweets s now rows acct (FetchResponse.http429 ra) =
      (recordThrottled now ra { (handleRateLimit now s).1 with lastRequestTime := now },
       rows, none) := by
  have hg := handleRateLimit_gate now s
  simp [fetchTweets, hg, fetchTweetsCore]

/-- C6: on a 429-equivalent response the tracker's remaining count is
forced to 0 and resetAt becomes the current time plus the retry-after
hint in seconds; when the hint is absent the default is 900s; the call
yields no items and leaves the cursor store unchanged. -/
theorem throttled_response_forces_reset (s : TwitterState) (now : Nat)
    (rows : List TwitterAccount) (acct : TwitterAccount) (ra : Option Nat) :
    (fetchTweets s now rows acct (FetchResponse.http429 ra)).1.remaining = 0 ∧
    (fetchTweets s now rows acct (FetchResponse.http429 ra)).1.resetAt
      = now + ra.getD 900 * 1000 ∧
    (fetchTweets s now rows acct (FetchResponse.http429 ra)).2.1 = rows ∧
    (fetchTweets s now rows acct (FetchResponse.http429 ra)).2.2 = none ∧
    (ra = none →
      (fetchTweets s now rows acct (FetchResponse.http429 ra)).1.resetAt = now + 900000) := by
  rw [fetchTweets_http429]
  refine ⟨rfl, rfl, rfl, rfl, ?_⟩
  rintro rfl
  rfl

/-- C6, witness: a 429 with no retry-after header at time 5 forces
remaining to 0 and resetAt to 5 + 900000. -/
theorem throttled_response_witness :
    (fetchTweets (initState 0) 5 [] ⟨"a", none⟩ (FetchResponse.http429 none)).1.remaining = 0 ∧
    (fetchTweets (initState 0) 5 [] ⟨"a", none⟩ (FetchResponse.http429 none)).1.resetAt
      = 5 + 900000 :=
  ⟨(throttled_response_forces_reset (initState 0) 5 [] ⟨"a", none⟩ none).1,
   (throttled_response_forces_reset (initState 0) 5 [] ⟨"a", none⟩ none).2.2.2.2 rfl⟩

/-! ## C1 -/

/-- Updating the cursor of a handle rewrites exactly the first row the
store lookup finds for that handle. -/
theorem find?_updateLastTweetId (rows : List TwitterAccount) (handle : String) (tid : Nat) :
    (updateLastTweetId rows handle tid).find? (fun r => r.account_handle == handle)
      = (rows.find? (fun r => r.account_handle == handle)).map
          (fun r => { r with last_tweet_id := some tid }) := by
  induction rows with
  | nil => rfl
  | cons r rs ih =>
      simp only [updateLastTweetId] at ih ⊢
      by_cases h : r.account_handle = handle
      · simp [h]
      · have hb : (r.account_handle == handle) = false := by
          simpa using h
        have hcond : ¬((r.account_handle == handle) = true) := by
          simp [hb]
        rw [List.map_cons, if_neg hcond, List.find?_cons, List.find?_cons, hb]
        exact ih

/-- The dispatch loop hands every collected item to the sender. -/
theorem sendAll_fst (items : List Tweet) (send : Tweet → Bool) :
    (sendAll items send).map Prod.fst = items := by
  induction items with
  | nil => rfl
  | cons t ts ih => simp [sendAll, ih]

/-- The dispatch loop attempts exactly one send per collected item,
whatever the individual outcomes are. -/
theorem sendAll_length (items : List Tweet) (send : Tweet → Bool) :
    (sendAll items send).length = items.length := by
  induction items with
  | nil => rfl
  | cons t ts ih => simp [sendAll, ih]

/-- fetchTweets on a 2xx response with non-empty data reduces to the
header record, the cursor update with the first item's id, and all items
returned. -/
theorem fetchTweets_ok_cons (s : TwitterState) (now : Nat) (rows : List TwitterAccount)
    (acct : TwitterAccount) (rem reset : Nat) (t : Tweet) (ts : List Tweet) :
    fetchTweets s now rows acct (FetchResponse.ok rem reset (t :: ts)) =
      (recordResponse rem reset { (handleRateLimit now s).1 with lastRequestTime := now },
       updateLastTweetId rows acct.account_handle t.id, some (t :: ts)) := by
  have hg := handleRateLimit_gate now s
  simp [fetchTweets, hg, fetchTweetsCore]

/-- C1: a successful poll of one account whose response data is non-empty
persists the id of the first (newest-first) item as the account's cursor
and returns every item of the response; the dispatch loop then hands
every one of them to the sender, one attempt each, regardless of the
individual send outcomes. -/
theorem cursor_and_dispatch_after_successful_poll
    (s : TwitterState) (now : Nat) (rows : List TwitterAccount)
    (acct a0 : TwitterAccount) (t : Tweet) (ts : List Tweet)
    (rem reset : Nat) (send : Tweet → Bool)
    (h : rows.find? (fun r => r.account_handle == acct.account_handle) = some a0) :
    (fetchTweets s now rows acct (FetchResponse.ok rem reset (t :: ts))).2.2
      = some (t :: ts) ∧
    (fetchTweets s now rows acct (FetchResponse.ok rem reset (t :: ts))).2.1.find?
        (fun r => r.account_handle == acct.account_handle)
      = some { a0 with last_tweet_id := some t.id } ∧
    (sendAll (t :: ts) send).map Prod.fst = t :: ts ∧
    (sendAll (t :: ts) send).length = ts.length + 1 := by
  rw [fetchTweets_ok_cons]
  refine ⟨rfl, ?_, sendAll_fst (t :: ts) send, ?_⟩
  · rw [find?_updateLastTweetId, h]
    rfl
  · rw [sendAll_length]
    rfl

/-- C1, witness: the account alice at cursor 2 polled with response ids
5, 4, 3 (newest first) ends at cursor 5 with all three items returned,
and the dispatch loop attempts exactly 3 sends even when every send
fails. -/
theorem cursor_and_dispatch_witness :
    ([⟨"alice", some 2⟩] : List TwitterAccount).find?
        (fun r => r.account_handle == "alice") = some ⟨"alice", some 2⟩ ∧
    ((fetchTweets (initState 0) 0 [⟨"alice", some 2⟩] ⟨"alice", some 2⟩
        (FetchResponse.ok 179 1000 [⟨5⟩, ⟨4⟩, ⟨3⟩])).2.2 = some [⟨5⟩, ⟨4⟩, ⟨3⟩] ∧
     (fetchTweets (initState 0) 0 [⟨"alice", some 2⟩] ⟨"alice", some 2⟩
        (FetchResponse.ok 179 1000 [⟨5⟩, ⟨4⟩, ⟨3⟩])).2.1.find?
          (fun r => r.account_handle == "alice") = some ⟨"alice", some 5⟩ ∧
     (sendAll [⟨5⟩, ⟨4⟩, ⟨3⟩] (fun _ => false)).map Prod.fst = [⟨5⟩, ⟨4⟩, ⟨3⟩] ∧
     (sendAll [⟨5⟩, ⟨4⟩, ⟨3⟩] (fun _ => false)).length = 3) :=
  ⟨by decide,
   cursor_and_dispatch_after_successful_poll (initState 0) 0 [⟨"alice", some 2⟩]
     ⟨"alice", some 2⟩ ⟨"alice", some 2⟩ ⟨5⟩ [⟨4⟩, ⟨3⟩] 179 1000 (fun _ => false) (by decide)⟩

/-! ## C4 -/

/-- C4, counterexample: with the gate denying account a at position 0 and
granting account b at position 1, the pass still fetches b: b's cursor is
updated and b's item is in the results, so the remainder of the pass is
not skipped and the returned results are not only those collected before
the denial. -/
theorem denied_entity_pass_continues_example :
    checkNewTweets
        [{ account := ⟨"a", none⟩, gate := false, resp := FetchResponse.ok 0 0 [⟨1⟩] },
         { account := ⟨"b", none⟩, gate := true, resp := FetchResponse.ok 0 0 [⟨2⟩] }]
        [⟨"a", none⟩, ⟨"b", none⟩]
      = ([⟨"a", none⟩, ⟨"b", some 2⟩], [("b", ⟨2⟩)]) ∧
    (checkNewTweets
        [{ account := ⟨"a", none⟩, gate := false, resp := FetchResponse.ok 0 0 [⟨1⟩] },
         { account := ⟨"b", none⟩, gate := true, resp := FetchResponse.ok 0 0 [⟨2⟩] }]
        [⟨"a", none⟩, ⟨"b", none⟩]).2 ≠ [] := by
  constructor <;> decide

/-- C4, amended: a rate-limit denial at one entity skips only that entity
— it contributes no items and no cursor update — and the pass continues
with every remaining entity, returning the same rows and results as if
the denied entity had not been in the list. -/
theorem denied_entity_skipped_only (xs ys : List AccountPoll) (p : AccountPoll)
    (rows : List TwitterAccount) (h : p.gate = false) :
    checkNewTweets (xs ++ p :: ys) rows = checkNewTweets (xs ++ ys) rows := by
  induction xs generalizing rows with
  | nil => simp [checkNewTweets, fetchTweetsCore, h]
  | cons q qs ih =>
      simp only [List.cons_append, checkNewTweets]
      rcases hq : fetchTweetsCore q.gate rows q.account q.resp with ⟨rows1, res⟩
      cases res with
      | some tweets => simp [ih]
      | none => exact ih rows1

/-- C4, witness: denying the first entity of a two-entity pass yields
exactly the pass over the remaining entity. -/
theorem denied_entity_skipped_only_witness :
    ({ account := ⟨"a", none⟩, gate := false, resp := FetchResponse.err } : AccountPoll).gate
      = false ∧
    checkNewTweets
        ([] ++ { account := (⟨"a", none⟩ : TwitterAccount), gate := false,
                 resp := FetchResponse.err } ::
          [{ account := ⟨"b", none⟩, gate := true, resp := FetchResponse.ok 0 0 [⟨2⟩] }])
        [⟨"b", none⟩]
      = checkNewTweets
          ([] ++ [{ account := (⟨"b", none⟩ : TwitterAccount), gate := true,
                    resp := FetchResponse.ok 0 0 [⟨2⟩] }])
          [⟨"b", none⟩] :=
  ⟨rfl, denied_entity_skipped_only [] _ _ _ rfl⟩

/-! ## C7 -/

/-- C7: the source-B newness filter keeps exactly the videos whose
publish timestamp is strictly less than 15 minutes before the current
time: one published 14m59s ago is kept, one published 15m01s ago is
dropped. -/
theorem upload_window_filter (now : Int) (videos : List Video) :
    (∀ v : Video, v ∈ filterNewVideos now videos ↔
        v ∈ videos ∧ now - v.publishedAt < 900000) ∧
    (∀ id : String, isNewVideo now { id := id, publishedAt := now - 899000 } = true) ∧
    (∀ id : String, isNewVideo now { id := id, publishedAt := now - 901000 } = false) := by
  refine ⟨?_, ?_, ?_⟩
  · intro v
    simp only [filterNewVideos, List.mem_filter, isNewVideo, decide_eq_true_eq]
    constructor
    · rintro ⟨hm, hlt⟩; exact ⟨hm, by omega⟩
    · rintro ⟨hm, hlt⟩; exact ⟨hm, by omega⟩
  · intro id
    simp only [isNewVideo, decide_eq_true_eq]
    omega
  · intro id
    simp only [isNewVideo, decide_eq_false_iff_not]
    omega

/-! ## C8 -/

/-- After an upsert, the store lookup for the guild returns exactly the
upserted values. -/
theorem setGuildChannels_find (rows : List GuildRow) (g tw yt : String) :
    (setGuildChannels rows g tw yt).find? (fun r => r.guild_id == g)
      = some { guild_id := g, twitter_channel_id := tw, youtube_channel_id := yt } := by
  induction rows with
  | nil => simp [setGuildChannels]
  | cons r rs ih =>
      by_cases h : r.guild_id = g
      · simp [setGuildChannels, h]
      · simp [setGuildChannels, h, ih]

/-- An upsert into a store holding at most one row for the guild leaves
exactly one row for the guild. -/
theorem setGuildChannels_count (rows : List GuildRow) (g tw yt : String)
    (h : rows.countP (fun r => r.guild_id == g) ≤ 1) :
    (setGuildChannels rows g tw yt).countP (fun r => r.guild_id == g) = 1 := by
  induction rows with
  | nil => simp [setGuildChannels]
  | cons r rs ih =>
      rw [List.countP_cons] at h
      by_cases hr : (r.guild_id == g) = true
      · rw [if_pos hr] at h
        have hc : rs.countP (fun r => r.guild_id == g) = 0 := by omega
        simp [setGuildChannels, hr, List.countP_cons, hc]
      · rw [if_neg hr] at h
        simp only [Nat.add_zero] at h
        simp [setGuildChannels, hr, List.countP_cons, ih h]

/-- C8: two successive destination-configuration upserts for the same
guild against a store satisfying the unique-guild constraint leave
exactly one row for that guild, and the lookup returns the channels of
the latest write. -/
theorem guild_config_upsert (rows : List GuildRow) (g tw1 yt1 tw2 yt2 : String)
    (h : rows.countP (fun r => r.guild_id == g) ≤ 1) :
    (setGuildChannels (setGuildChannels rows g tw1 yt1) g tw2 yt2).countP
        (fun r => r.guild_id == g) = 1 ∧
    (setGuildChannels (setGuildChannels rows g tw1 yt1) g tw2 yt2).find?
        (fun r => r.guild_id == g)
      = some { guild_id := g, twitter_channel_id := tw2, youtube_channel_id := yt2 } := by
  have h1 := setGuildChannels_count rows g tw1 yt1 h
  exact ⟨setGuildChannels_count _ g tw2 yt2 (by omega), setGuildChannels_find _ g tw2 yt2⟩

/-- C8, witness: two setups for guild g, first with channels a and b,
then with c and d, leave exactly one row for g holding c and d. -/
theorem guild_config_upsert_witness :
    ([] : List GuildRow).countP (fun r => r.guild_id == "g") ≤ 1 ∧
    ((setGuildChannels (setGuildChannels [] "g" "a" "b") "g" "c" "d").countP
        (fun r => r.guild_id == "g") = 1 ∧
     (setGuildChannels (setGuildChannels [] "g" "a" "b") "g" "c" "d").find?
        (fun r => r.guild_id == "g") = some ⟨"g", "c", "d"⟩) :=
  ⟨by decide, guild_config_upsert [] "g" "a" "b" "c" "d" (by decide)⟩

/-! ## C9 -/

/-- C9: when the channel lookup fails or resolves to no channel, the add
command persists nothing and replies with the failure message; and
whenever the success path runs, the lookup had resolved to a real
channel. -/
theorem add_channel_requires_verification (rows : List YoutubeRow) (channelId : String)
    (lookup : ChannelLookup) (pl : List String) (vd : List YtVideo) :
    ((lookup = ChannelLookup.fail ∨ lookup = ChannelLookup.ok []) →
      youtubeAddCommand rows channelId lookup pl vd = (rows, false)) ∧
    ((youtubeAddCommand rows channelId lookup pl vd).2 = true →
      ∃ c rest, lookup = ChannelLookup.ok (c :: rest)) := by
  constructor
  · rintro (rfl | rfl) <;> rfl
  · intro h
    cases lookup with
    | fail => simp [youtubeAddCommand, fetchLatestVideos] at h
    | ok items =>
        cases items with
        | nil => simp [youtubeAddCommand, fetchLatestVideos] at h
        | cons c rest => exact ⟨c, rest, rfl⟩

/-- C9, witness: a failed lookup for channel c persists nothing and
reports failure; a successful add implies the lookup resolved to a real
channel. -/
theorem add_channel_requires_verification_witness :
    youtubeAddCommand [] "c" ChannelLookup.fail [] [] = ([], false) ∧
    (youtubeAddCommand [] "c" (ChannelLookup.ok [⟨"c", "u", "t"⟩]) ["v"] []).2 = true ∧
    ∃ c rest, ChannelLookup.ok [(⟨"c", "u", "t"⟩ : YtChannelInfo)]
      = ChannelLookup.ok (c :: rest) :=
  ⟨(add_channel_requires_verification [] "c" ChannelLookup.fail [] []).1 (Or.inl rfl),
   by decide,
   (add_channel_requires_verification [] "c" (ChannelLookup.ok [⟨"c", "u", "t"⟩]) ["v"] []).2
     (by decide)⟩

end Jinn
